import Mathlib

/-!
Verification of `api/metadata_handler.go` from the wpt.fyi repository.

The Go source is shallowly embedded: pure helpers (`filterMetadata`,
`cacheKey`, `getWPTFYIGithubBot`) become Lean functions, and the two HTTP
handlers become pure functions over an environment record whose fields are
the outcomes of each external (effectful) call the handler makes, in the
order the source performs them.  Each handler also returns the trace of the
external operations it actually invoked, so that "call X is never reached"
claims are statable.
-/

/-! ## Strings: substring containment (Go `strings.Contains`) -/

/-- Go `strings.HasPrefix` on character lists: does the first list start
with the second? -/
def strStartsWith : List Char → List Char → Bool
  | _, [] => true
  | [], _ :: _ => false
  | c :: cs, d :: ds => c == d && strStartsWith cs ds

/-- Scan of `strings.Contains`: does some suffix of `s` start with `pat`? -/
def hasSubstrAux (pat : List Char) : List Char → Bool
  | [] => strStartsWith [] pat
  | c :: cs => strStartsWith (c :: cs) pat || hasSubstrAux pat cs

/-- Go `strings.Contains s pat`: `pat` occurs as a contiguous substring of
`s` (case-sensitive; the empty pattern occurs in every string). -/
def strContains (s pat : String) : Bool :=
  hasSubstrAux pat.toList s.toList

theorem strStartsWith_nil (s : List Char) : strStartsWith s [] = true := by
  cases s <;> rfl

theorem hasSubstrAux_nil (s : List Char) : hasSubstrAux [] s = true := by
  induction s with
  | nil => rfl
  | cons c cs ih => simp [hasSubstrAux, strStartsWith_nil, ih]

theorem strContains_empty (s : String) : strContains s "" = true := by
  simpa [strContains] using hasSubstrAux_nil s.toList

/-! ## Metadata model (`shared.MetadataResults`)

a mapping from test name to an ordered list of link records; the Go map is
embedded as an association list whose keys are the test names. -/

/-- Link record of a metadata entry; only the URL field is consulted by this
file's code. -/
structure MetadataLink where
  url : String
deriving DecidableEq, Repr

/-- Go `shared.MetadataResults`: test name → ordered links, as an
association list. -/
abbrev MetadataResults : Type := List (String × List MetadataLink)

/-- Inner loop of `filterMetadata`: the Go `for _, link := range links`
with `break` on the first link whose URL contains the pattern. -/
def linksMatch (pattern : String) : List MetadataLink → Bool
  | [] => false
  | link :: rest =>
    if strContains link.url pattern then true else linksMatch pattern rest

/-- Go `filterMetadata`: keep exactly the entries one of whose link URLs
contains the pattern of the link query; a kept entry keeps its whole link
list. -/
def filterMetadata (linkQueryPattern : String) (metadata : MetadataResults) :
    MetadataResults :=
  List.filter (fun e => linksMatch linkQueryPattern e.2) metadata

theorem linksMatch_eq_any (p : String) (links : List MetadataLink) :
    linksMatch p links = links.any (fun l => strContains l.url p) := by
  induction links with
  | nil => rfl
  | cons l rest ih =>
    by_cases h : strContains l.url p = true
    · simp [linksMatch, h]
    · simp [linksMatch, h, ih]

theorem linksMatch_empty_pattern (links : List MetadataLink) :
    linksMatch "" links = !links.isEmpty := by
  cases links with
  | nil => rfl
  | cons l rest => simp [linksMatch, strContains_empty]

/-! ## HTTP response model

a response is the status code and message written by `http.Error` /
`WriteHeader`; the message of `http.Error` is taken before its trailing
newline. -/

/-- Status code and body message written to the `http.ResponseWriter`. -/
structure Response where
  status : Nat
  body : String
deriving DecidableEq, Repr

/-! ## Cache-key derivation (`cacheKey`, lines 226-244)

the request is embedded as method, URL string, and the state of the body
stream; reading an `avail` body yields its bytes, a `failing` body yields a
read error. -/

/-- State of `r.Body`: readable data, or a stream whose read fails. -/
inductive BodyStream where
  | avail (data : String)
  | failing (err : String)
deriving DecidableEq, Repr

/-- Request as consulted by `cacheKey`: method, canonical URL string, and
body stream. -/
structure CKRequest where
  method : String
  url : String
  body : BodyStream
deriving DecidableEq, Repr

/-- Modelled from the spec: `shared.URLAsCacheKey` (shared package, not
under src/) returns the canonical request URL string, including query
parameters, as the cache key. -/
def URLAsCacheKey (r : CKRequest) : String := r.url

/-- Go `cacheKey`: for GET, the URL string without touching the body; for a
body-bearing method, read the body (a read failure panics — modelled as
`Except.error` carrying the panic message — so no key is ever produced),
rebuild a fresh readable body for downstream handlers, and return
`url # body`.  The result pairs the key with the request as downstream
handlers see it. -/
def cacheKey (r : CKRequest) : Except String (String × CKRequest) :=
  if r.method == "GET" then
    Except.ok (URLAsCacheKey r, r)
  else
    match r.body with
    | BodyStream.failing e =>
        Except.error
          ("Failed to read non-GET request body for generating cache key: " ++ e)
    | BodyStream.avail data =>
        Except.ok (r.url ++ "#" ++ data, { r with body := BodyStream.avail data })

/-! ## Triage endpoint (`apiMetadataTriageHandler`, lines 54-144)

each external call the handler makes is a field of `TriageEnv`, in source
order; the handler returns its response together with the trace of the
external operations it actually performed. -/

/-- Session user (`shared.User`); the handler reads the author-attribution
fields (the second field name carries the source's spelling). -/
structure User where
  gitHubHandle : String
  githuhEmail : String
deriving DecidableEq, Repr

/-- Opaque GitHub client value returned by `shared.GetGithubClientFromToken`. -/
structure GithubClient where
  id : Nat
deriving DecidableEq, Repr

/-- External operations the triage handler can invoke, in trace order. -/
inductive Event where
  | secretLookup (name : String)
  | tokenCheck
  | orgMembershipCheck
  | botClientLookup
  | submit
deriving DecidableEq, Repr

/-- Outcomes of the external calls of `apiMetadataTriageHandler`, as fields
in the order the source performs them.  `Except.error` carries the Go
error's message. -/
structure TriageEnv where
  method : String
  contentType : String
  readBody : Except String String
  closeBody : Except String Unit
  unmarshal : String → Except String MetadataResults
  userFromCookie : Option User × Option String
  getSecret : String → Except String String
  tokenCheck : String → String → Except String Nat
  orgMembership : String → Except String Nat
  githubClientFromToken : String → Except String GithubClient
  triage : MetadataResults → Except String Unit

/-- Go `getWPTFYIGithubBot` (lines 246-253): acquire the bot client from the
`github-wpt-fyi-bot-token` secret, propagating any error. -/
def getWPTFYIGithubBot (env : TriageEnv) : Except String GithubClient :=
  match env.githubClientFromToken "github-wpt-fyi-bot-token" with
  | Except.error e => Except.error e
  | Except.ok client => Except.ok client

/-- Go `apiMetadataTriageHandler` (lines 54-144): the ordered authorization
pipeline, each failing step terminal, followed by bot-client acquisition and
submission.  Returns the response and the trace of external operations
performed. -/
def apiMetadataTriageHandler (env : TriageEnv) : Response × List Event :=
  if env.method != "PATCH" then
    ({ status := 400, body := "Invalid HTTP method; only accpet PATCH request" }, [])
  else if env.contentType != "application/json" then
    ({ status := 400, body := "Invalid content-type: %s" ++ env.contentType }, [])
  else
    match env.readBody with
    | Except.error _ =>
        ({ status := 500, body := "Failed to read PATCH request body" }, [])
    | Except.ok data =>
      match env.closeBody with
      | Except.error _ =>
          ({ status := 500, body := "Failed to finish reading request body" }, [])
      | Except.ok _ =>
        match env.unmarshal data with
        | Except.error e =>
            ({ status := 400, body := "Failed to parse JSON: " ++ e }, [])
        | Except.ok metadata =>
          match env.userFromCookie with
          | (some _user, some token) =>
            (match env.getSecret "github-oauth-client-id" with
            | Except.error e =>
                ({ status := 500,
                   body := "Failed to get github-oauth-client-id secret: " ++ e },
                 [Event.secretLookup "github-oauth-client-id"])
            | Except.ok clientID =>
              match env.tokenCheck clientID token with
              | Except.error e =>
                  ({ status := 500, body := "Fail to validate user token " ++ e },
                   [Event.secretLookup "github-oauth-client-id", Event.tokenCheck])
              | Except.ok tokenStatus =>
                if tokenStatus != 200 then
                  ({ status := 400, body := "User token invalid; please log in again. " },
                   [Event.secretLookup "github-oauth-client-id", Event.tokenCheck])
                else
                  match env.orgMembership "web-platform-tests" with
                  | Except.error e =>
                      ({ status := 500,
                         body := "Fail to validate web-platform-tests membership: " ++ e },
                       [Event.secretLookup "github-oauth-client-id", Event.tokenCheck,
                        Event.orgMembershipCheck])
                  | Except.ok orgStatus =>
                    if orgStatus != 200 then
                      ({ status := 400, body := "User is not a part of web-platform-tests" },
                       [Event.secretLookup "github-oauth-client-id", Event.tokenCheck,
                        Event.orgMembershipCheck])
                    else
                      match getWPTFYIGithubBot env with
                      | Except.error e =>
                          ({ status := 500, body := "Unable to get Github Client: " ++ e },
                           [Event.secretLookup "github-oauth-client-id", Event.tokenCheck,
                            Event.orgMembershipCheck, Event.botClientLookup])
                      | Except.ok _bot =>
                        match env.triage metadata with
                        | Except.error e =>
                            ({ status := 500, body := "Unable to triage metadata: " ++ e },
                             [Event.secretLookup "github-oauth-client-id", Event.tokenCheck,
                              Event.orgMembershipCheck, Event.botClientLookup, Event.submit])
                        | Except.ok _ =>
                            ({ status := 201, body := "" },
                             [Event.secretLookup "github-oauth-client-id", Event.tokenCheck,
                              Event.orgMembershipCheck, Event.botClientLookup, Event.submit]))
          | (none, _) => ({ status := 400, body := "User is not logged in" }, [])
          | (some _, none) => ({ status := 400, body := "User is not logged in" }, [])

/-! ## Metadata query endpoint (`MetadataHandler.ServeHTTP`, lines 146-208) -/

/-- Parsed query-AST argument (`shared.AbstractQuery` values appearing in
`AbstractExists.Args`): a link-pattern predicate (`query.AbstractLink`) or
any other node kind, on which the Go type assertion to `AbstractLink`
fails. -/
inductive AbstractQuery where
  | link (pattern : String)
  | otherNode (tag : String)
deriving DecidableEq, Repr

/-- Go `query.AbstractExists`: the structured query decoded from a POST
body, holding its argument list. -/
structure AbstractExists where
  args : List AbstractQuery
deriving DecidableEq, Repr

/-- Lines 168-171: `isLinkQuery` is true exactly when the argument list has
length one and its element type-asserts to `query.AbstractLink`; in that
case the pattern is extracted. -/
def extractLinkQuery : List AbstractQuery → Option String
  | [AbstractQuery.link p] => some p
  | _ => none

/-- External operations `ServeHTTP` can invoke. -/
inductive MEvent where
  | fetchMetadata
deriving DecidableEq, Repr

/-- Outcomes of the external calls of `MetadataHandler.ServeHTTP`, in
source order.  `parseProducts` is `shared.ParseProductOrBrowserParams` of
the request's query string; `getMetadata` is
`shared.GetMetadataResponseOnProducts`. -/
structure MetadataEnv where
  method : String
  readBody : Except String String
  closeBody : Except String Unit
  unmarshalExists : String → Except String AbstractExists
  parseProducts : Except String (List String)
  getMetadata : List String → Except String MetadataResults
  marshal : MetadataResults → Except String String
  writeBody : String → Except String Unit

/-- Lines 180-207 of `ServeHTTP`, common to GET and POST: parse products,
fetch metadata, filter when the request was a POST, marshal and write. -/
def serveMetadataTail (env : MetadataEnv) (isPost : Bool) (pattern : String) :
    Response × List MEvent :=
  match env.parseProducts with
  | Except.error e => ({ status := 400, body := e }, [])
  | Except.ok productSpecs =>
    if productSpecs.length == 0 then
      ({ status := 400, body := "Missing required 'product' param" }, [])
    else
      match env.getMetadata productSpecs with
      | Except.error e => ({ status := 500, body := e }, [MEvent.fetchMetadata])
      | Except.ok metadataResponse =>
        let filtered :=
          if isPost then filterMetadata pattern metadataResponse
          else metadataResponse
        match env.marshal filtered with
        | Except.error e => ({ status := 500, body := e }, [MEvent.fetchMetadata])
        | Except.ok marshalled =>
          match env.writeBody marshalled with
          | Except.error e => ({ status := 500, body := e }, [MEvent.fetchMetadata])
          | Except.ok _ => ({ status := 200, body := marshalled }, [MEvent.fetchMetadata])

/-- Go `MetadataHandler.ServeHTTP` (lines 146-208): for POST, read, close
and decode the body into a structured query that must be exactly one
link-pattern predicate; then (for GET and POST alike) serve the metadata,
filtered by the extracted pattern when the request was a POST. -/
def ServeHTTP (env : MetadataEnv) : Response × List MEvent :=
  if env.method == "POST" then
    match env.readBody with
    | Except.error _ =>
        ({ status := 500, body := "Failed to read request body" }, [])
    | Except.ok data =>
      match env.closeBody with
      | Except.error _ =>
          ({ status := 500, body := "Failed to finish reading request body" }, [])
      | Except.ok _ =>
        match env.unmarshalExists data with
        | Except.error e => ({ status := 400, body := e }, [])
        | Except.ok ae =>
          match extractLinkQuery ae.args with
          | none =>
              ({ status := 400,
                 body := "Error from request: non Link search query for api/metadata" }, [])
          | some pattern => serveMetadataTail env true pattern
  else
    serveMetadataTail env false ""

/-! ## Claim theorems: LinkFilter -/

/-- C3: an entry is in `filterMetadata p m` iff it is in `m` and at least
one of its links has a URL containing `p` (the entry kept with its full
link list); hence the output's keys are a subset of `m`'s keys, every
retained entry has a matching link, and the empty pattern retains exactly
the entries with a non-empty link list. -/
theorem filterMetadata_membership_spec (p : String) (m : MetadataResults) :
    (∀ e : String × List MetadataLink,
      e ∈ filterMetadata p m ↔
        e ∈ m ∧ (e.2.any fun l => strContains l.url p) = true)
    ∧ (∀ e : String × List MetadataLink,
        e ∈ filterMetadata p m → e.1 ∈ m.map Prod.fst)
    ∧ (∀ e : String × List MetadataLink,
        e ∈ filterMetadata "" m ↔ e ∈ m ∧ e.2 ≠ []) := by
  refine ⟨?_, ?_, ?_⟩
  · intro e
    rw [filterMetadata, List.mem_filter, linksMatch_eq_any]
  · intro e he
    rw [filterMetadata, List.mem_filter] at he
    exact List.mem_map_of_mem Prod.fst he.1
  · intro e
    rw [filterMetadata, List.mem_filter, linksMatch_empty_pattern]
    cases h : e.2 <;> simp [h]

/-- Witness for C3: a concrete metadata mapping, a concrete retained entry
and a concrete dropped one. -/
theorem filterMetadata_membership_spec_witness :
    (("test1", [MetadataLink.mk "https://github.com/issue/1"]) ∈
      filterMetadata "github.com/issue/1"
        [("test1", [MetadataLink.mk "https://github.com/issue/1"]),
         ("test2", [MetadataLink.mk "https://other.com"])])
    ∧ (("test2", [MetadataLink.mk "https://other.com"]) ∉
        filterMetadata "github.com/issue/1"
          [("test1", [MetadataLink.mk "https://github.com/issue/1"]),
           ("test2", [MetadataLink.mk "https://other.com"])]) := by
  constructor
  · exact ((filterMetadata_membership_spec "github.com/issue/1"
      [("test1", [MetadataLink.mk "https://github.com/issue/1"]),
       ("test2", [MetadataLink.mk "https://other.com"])]).1 _).mpr
      (by constructor
          · simp
          · decide)
  · intro hmem
    have h := ((filterMetadata_membership_spec "github.com/issue/1"
      [("test1", [MetadataLink.mk "https://github.com/issue/1"]),
       ("test2", [MetadataLink.mk "https://other.com"])]).1 _).mp hmem
    revert h
    decide

/-- C7: the link filter is idempotent. -/
theorem filterMetadata_idempotent (p : String) (m : MetadataResults) :
    filterMetadata p (filterMetadata p m) = filterMetadata p m := by
  unfold filterMetadata
  rw [List.filter_filter]
  simp

/-- C8: filtering produces a new mapping that is a sublist of the input —
every retained entry carries exactly its original link sequence in the
original order — and the input value is left unchanged (the function is
pure: it only reads `m`). -/
theorem filterMetadata_frame (p : String) (m : MetadataResults) :
    List.Sublist (filterMetadata p m) m
    ∧ (∀ e : String × List MetadataLink,
        e ∈ filterMetadata p m → e ∈ m) := by
  constructor
  · exact List.filter_sublist m
  · intro e he
    exact (List.mem_filter.mp he).1

/-- Witness for C8 at a concrete mapping. -/
theorem filterMetadata_frame_witness :
    ("t", [MetadataLink.mk "abc"]) ∈
      ([("t", [MetadataLink.mk "abc"])] : MetadataResults) :=
  (filterMetadata_frame "b" [("t", [MetadataLink.mk "abc"])]).2
    ("t", [MetadataLink.mk "abc"]) (by decide)

/-! ## Claim theorems: CacheKeyDeriver -/

/-- C2: cache-key derivation is a function of (method, URL, body): a GET
request's key is exactly the URL string and the request (body included) is
returned untouched — the body is never read, whatever its state; a POST
request's key is the URL, then `#`, then the body bytes, and the request
handed to downstream handlers again carries the full readable body. -/
theorem cacheKey_spec (r : CKRequest) :
    (r.method = "GET" → cacheKey r = Except.ok (r.url, r))
    ∧ (∀ d : String, r.method = "POST" → r.body = BodyStream.avail d →
        cacheKey r = Except.ok (r.url ++ "#" ++ d, r)) := by
  constructor
  · intro h
    simp [cacheKey, URLAsCacheKey, h]
  · intro d hm hb
    cases r with
    | mk method url body =>
      simp only at hm hb
      subst hm
      subst hb
      simp [cacheKey]

/-- Witness for C2: a concrete GET request (with a failing body, showing the
body is not consulted) and a concrete POST request. -/
theorem cacheKey_spec_witness :
    cacheKey ⟨"GET", "/api/metadata?product=chrome", BodyStream.failing "eof"⟩ =
      Except.ok ("/api/metadata?product=chrome",
        ⟨"GET", "/api/metadata?product=chrome", BodyStream.failing "eof"⟩)
    ∧ cacheKey ⟨"POST", "/api/metadata?product=chrome", BodyStream.avail "{}"⟩ =
        Except.ok ("/api/metadata?product=chrome" ++ "#" ++ "{}",
          ⟨"POST", "/api/metadata?product=chrome", BodyStream.avail "{}"⟩) :=
  ⟨(cacheKey_spec ⟨"GET", "/api/metadata?product=chrome",
      BodyStream.failing "eof"⟩).1 rfl,
   (cacheKey_spec ⟨"POST", "/api/metadata?product=chrome",
      BodyStream.avail "{}"⟩).2 "{}" rfl rfl⟩

/-- C6: when reading the body fails while deriving the key of a body-bearing
request, the computation aborts with the reported panic message and no key
is ever produced — the request is never served uncached. -/
theorem cacheKey_bodyReadFailure_fatal (r : CKRequest) (e : String)
    (hm : r.method ≠ "GET") (hb : r.body = BodyStream.failing e) :
    cacheKey r =
      Except.error
        ("Failed to read non-GET request body for generating cache key: " ++ e) := by
  simp [cacheKey, hm, hb]

/-- Witness for C6 at a concrete POST request with a failing body. -/
theorem cacheKey_bodyReadFailure_fatal_witness :
    cacheKey ⟨"POST", "/api/metadata", BodyStream.failing "unexpected EOF"⟩ =
      Except.error
        ("Failed to read non-GET request body for generating cache key: "
          ++ "unexpected EOF") :=
  cacheKey_bodyReadFailure_fatal
    ⟨"POST", "/api/metadata", BodyStream.failing "unexpected EOF"⟩
    "unexpected EOF" (by decide) rfl

/-! ## Step lemmas for the triage pipeline -/

theorem triage_step_method (env : TriageEnv) (h : env.method ≠ "PATCH") :
    apiMetadataTriageHandler env =
      ({ status := 400, body := "Invalid HTTP method; only accpet PATCH request" }, []) := by
  simp [apiMetadataTriageHandler, h]

theorem triage_step_contentType (env : TriageEnv)
    (hm : env.method = "PATCH") (h : env.contentType ≠ "application/json") :
    apiMetadataTriageHandler env =
      ({ status := 400, body := "Invalid content-type: %s" ++ env.contentType }, []) := by
  simp [apiMetadataTriageHandler, hm, h]

theorem triage_step_readBody (env : TriageEnv) (e : String)
    (hm : env.method = "PATCH") (hc : env.contentType = "application/json")
    (h : env.readBody = Except.error e) :
    apiMetadataTriageHandler env =
      ({ status := 500, body := "Failed to read PATCH request body" }, []) := by
  simp [apiMetadataTriageHandler, hm, hc, h]

theorem triage_step_closeBody (env : TriageEnv) (data e : String)
    (hm : env.method = "PATCH") (hc : env.contentType = "application/json")
    (hr : env.readBody = Except.ok data) (h : env.closeBody = Except.error e) :
    apiMetadataTriageHandler env =
      ({ status := 500, body := "Failed to finish reading request body" }, []) := by
  simp [apiMetadataTriageHandler, hm, hc, hr, h]

theorem triage_step_parse (env : TriageEnv) (data e : String)
    (hm : env.method = "PATCH") (hc : env.contentType = "application/json")
    (hr : env.readBody = Except.ok data) (hcl : env.closeBody = Except.ok ())
    (h : env.unmarshal data = Except.error e) :
    apiMetadataTriageHandler env =
      ({ status := 400, body := "Failed to parse JSON: " ++ e }, []) := by
  simp [apiMetadataTriageHandler, hm, hc, hr, hcl, h]

theorem triage_step_notLoggedIn (env : TriageEnv) (data : String)
    (metadata : MetadataResults) (u : Option User) (t : Option String)
    (hm : env.method = "PATCH") (hc : env.contentType = "application/json")
    (hr : env.readBody = Except.ok data) (hcl : env.closeBody = Except.ok ())
    (hu : env.unmarshal data = Except.ok metadata)
    (hck : env.userFromCookie = (u, t)) (h : u = none ∨ t = none) :
    apiMetadataTriageHandler env =
      ({ status := 400, body := "User is not logged in" }, []) := by
  rcases u with _ | u <;> rcases t with _ | t
  · simp [apiMetadataTriageHandler, hm, hc, hr, hcl, hu, hck]
  · simp [apiMetadataTriageHandler, hm, hc, hr, hcl, hu, hck]
  · simp [apiMetadataTriageHandler, hm, hc, hr, hcl, hu, hck]
  · simp at h

theorem triage_step_secret (env : TriageEnv) (data e : String)
    (metadata : MetadataResults) (u : User) (tok : String)
    (hm : env.method = "PATCH") (hc : env.contentType = "application/json")
    (hr : env.readBody = Except.ok data) (hcl : env.closeBody = Except.ok ())
    (hu : env.unmarshal data = Except.ok metadata)
    (hck : env.userFromCookie = (some u, some tok))
    (h : env.getSecret "github-oauth-client-id" = Except.error e) :
    apiMetadataTriageHandler env =
      ({ status := 500, body := "Failed to get github-oauth-client-id secret: " ++ e },
       [Event.secretLookup "github-oauth-client-id"]) := by
  simp [apiMetadataTriageHandler, hm, hc, hr, hcl, hu, hck, h]

theorem triage_step_tokenTransport (env : TriageEnv) (data e cid : String)
    (metadata : MetadataResults) (u : User) (tok : String)
    (hm : env.method = "PATCH") (hc : env.contentType = "application/json")
    (hr : env.readBody = Except.ok data) (hcl : env.closeBody = Except.ok ())
    (hu : env.unmarshal data = Except.ok metadata)
    (hck : env.userFromCookie = (some u, some tok))
    (hs : env.getSecret "github-oauth-client-id" = Except.ok cid)
    (h : env.tokenCheck cid tok = Except.error e) :
    apiMetadataTriageHandler env =
      ({ status := 500, body := "Fail to validate user token " ++ e },
       [Event.secretLookup "github-oauth-client-id", Event.tokenCheck]) := by
  simp [apiMetadataTriageHandler, hm, hc, hr, hcl, hu, hck, hs, h]

theorem triage_step_tokenInvalid (env : TriageEnv) (data cid : String)
    (metadata : MetadataResults) (u : User) (tok : String) (st : Nat)
    (hm : env.method = "PATCH") (hc : env.contentType = "application/json")
    (hr : env.readBody = Except.ok data) (hcl : env.closeBody = Except.ok ())
    (hu : env.unmarshal data = Except.ok metadata)
    (hck : env.userFromCookie = (some u, some tok))
    (hs : env.getSecret "github-oauth-client-id" = Except.ok cid)
    (ht : env.tokenCheck cid tok = Except.ok st) (h : st ≠ 200) :
    apiMetadataTriageHandler env =
      ({ status := 400, body := "User token invalid; please log in again. " },
       [Event.secretLookup "github-oauth-client-id", Event.tokenCheck]) := by
  simp [apiMetadataTriageHandler, hm, hc, hr, hcl, hu, hck, hs, ht, h]

theorem triage_step_orgTransport (env : TriageEnv) (data cid e : String)
    (metadata : MetadataResults) (u : User) (tok : String)
    (hm : env.method = "PATCH") (hc : env.contentType = "application/json")
    (hr : env.readBody = Except.ok data) (hcl : env.closeBody = Except.ok ())
    (hu : env.unmarshal data = Except.ok metadata)
    (hck : env.userFromCookie = (some u, some tok))
    (hs : env.getSecret "github-oauth-client-id" = Except.ok cid)
    (ht : env.tokenCheck cid tok = Except.ok 200)
    (h : env.orgMembership "web-platform-tests" = Except.error e) :
    apiMetadataTriageHandler env =
      ({ status := 500, body := "Fail to validate web-platform-tests membership: " ++ e },
       [Event.secretLookup "github-oauth-client-id", Event.tokenCheck,
        Event.orgMembershipCheck]) := by
  simp [apiMetadataTriageHandler, hm, hc, hr, hcl, hu, hck, hs, ht, h]

theorem triage_step_notMember (env : TriageEnv) (data cid : String)
    (metadata : MetadataResults) (u : User) (tok : String) (st : Nat)
    (hm : env.method = "PATCH") (hc : env.contentType = "application/json")
    (hr : env.readBody = Except.ok data) (hcl : env.closeBody = Except.ok ())
    (hu : env.unmarshal data = Except.ok metadata)
    (hck : env.userFromCookie = (some u, some tok))
    (hs : env.getSecret "github-oauth-client-id" = Except.ok cid)
    (ht : env.tokenCheck cid tok = Except.ok 200)
    (ho : env.orgMembership "web-platform-tests" = Except.ok st) (h : st ≠ 200) :
    apiMetadataTriageHandler env =
      ({ status := 400, body := "User is not a part of web-platform-tests" },
       [Event.secretLookup "github-oauth-client-id", Event.tokenCheck,
        Event.orgMembershipCheck]) := by
  simp [apiMetadataTriageHandler, hm, hc, hr, hcl, hu, hck, hs, ht, ho, h]

theorem triage_step_botFailure (env : TriageEnv) (data cid e : String)
    (metadata : MetadataResults) (u : User) (tok : String)
    (hm : env.method = "PATCH") (hc : env.contentType = "application/json")
    (hr : env.readBody = Except.ok data) (hcl : env.closeBody = Except.ok ())
    (hu : env.unmarshal data = Except.ok metadata)
    (hck : env.userFromCookie = (some u, some tok))
    (hs : env.getSecret "github-oauth-client-id" = Except.ok cid)
    (ht : env.tokenCheck cid tok = Except.ok 200)
    (ho : env.orgMembership "web-platform-tests" = Except.ok 200)
    (h : env.githubClientFromToken "github-wpt-fyi-bot-token" = Except.error e) :
    apiMetadataTriageHandler env =
      ({ status := 500, body := "Unable to get Github Client: " ++ e },
       [Event.secretLookup "github-oauth-client-id", Event.tokenCheck,
        Event.orgMembershipCheck, Event.botClientLookup]) := by
  simp [apiMetadataTriageHandler, getWPTFYIGithubBot, hm, hc, hr, hcl, hu, hck, hs, ht, ho, h]

theorem triage_step_submitFailure (env : TriageEnv) (data cid e : String)
    (metadata : MetadataResults) (u : User) (tok : String) (bot : GithubClient)
    (hm : env.method = "PATCH") (hc : env.contentType = "application/json")
    (hr : env.readBody = Except.ok data) (hcl : env.closeBody = Except.ok ())
    (hu : env.unmarshal data = Except.ok metadata)
    (hck : env.userFromCookie = (some u, some tok))
    (hs : env.getSecret "github-oauth-client-id" = Except.ok cid)
    (ht : env.tokenCheck cid tok = Except.ok 200)
    (ho : env.orgMembership "web-platform-tests" = Except.ok 200)
    (hb : env.githubClientFromToken "github-wpt-fyi-bot-token" = Except.ok bot)
    (h : env.triage metadata = Except.error e) :
    apiMetadataTriageHandler env =
      ({ status := 500, body := "Unable to triage metadata: " ++ e },
       [Event.secretLookup "github-oauth-client-id", Event.tokenCheck,
        Event.orgMembershipCheck, Event.botClientLookup, Event.submit]) := by
  simp [apiMetadataTriageHandler, getWPTFYIGithubBot, hm, hc, hr, hcl, hu, hck, hs, ht, ho,
    hb, h]

theorem triage_step_success (env : TriageEnv) (data cid : String)
    (metadata : MetadataResults) (u : User) (tok : String) (bot : GithubClient)
    (hm : env.method = "PATCH") (hc : env.contentType = "application/json")
    (hr : env.readBody = Except.ok data) (hcl : env.closeBody = Except.ok ())
    (hu : env.unmarshal data = Except.ok metadata)
    (hck : env.userFromCookie = (some u, some tok))
    (hs : env.getSecret "github-oauth-client-id" = Except.ok cid)
    (ht : env.tokenCheck cid tok = Except.ok 200)
    (ho : env.orgMembership "web-platform-tests" = Except.ok 200)
    (hb : env.githubClientFromToken "github-wpt-fyi-bot-token" = Except.ok bot)
    (h : env.triage metadata = Except.ok ()) :
    apiMetadataTriageHandler env =
      ({ status := 201, body := "" },
       [Event.secretLookup "github-oauth-client-id", Event.tokenCheck,
        Event.orgMembershipCheck, Event.botClientLookup, Event.submit]) := by
  simp [apiMetadataTriageHandler, getWPTFYIGithubBot, hm, hc, hr, hcl, hu, hck, hs, ht, ho,
    hb, h]

theorem triage_submit_only_if_authorized (env : TriageEnv)
    (h : Event.submit ∈ (apiMetadataTriageHandler env).2) :
    env.method = "PATCH" ∧ env.contentType = "application/json" ∧
    ∃ (data : String) (metadata : MetadataResults) (u : User) (tok cid : String)
      (bot : GithubClient),
      env.readBody = Except.ok data ∧ env.closeBody = Except.ok () ∧
      env.unmarshal data = Except.ok metadata ∧
      env.userFromCookie = (some u, some tok) ∧
      env.getSecret "github-oauth-client-id" = Except.ok cid ∧
      env.tokenCheck cid tok = Except.ok 200 ∧
      env.orgMembership "web-platform-tests" = Except.ok 200 ∧
      env.githubClientFromToken "github-wpt-fyi-bot-token" = Except.ok bot := by
  by_cases hm : env.method = "PATCH"
  · by_cases hc : env.contentType = "application/json"
    · rcases hr : env.readBody with e | data
      · rw [triage_step_readBody env e hm hc hr] at h
        simp at h
      · rcases hcl : env.closeBody with e | uu
        · rw [triage_step_closeBody env data e hm hc hr hcl] at h
          simp at h
        · cases uu
          rcases hj : env.unmarshal data with e | metadata
          · rw [triage_step_parse env data e hm hc hr hcl hj] at h
            simp at h
          · rcases hck : env.userFromCookie with ⟨uo, toko⟩
            rcases uo with _ | u
            · rw [triage_step_notLoggedIn env data metadata none toko hm hc hr hcl hj hck
                (Or.inl rfl)] at h
              simp at h
            · rcases toko with _ | tok
              · rw [triage_step_notLoggedIn env data metadata (some u) none hm hc hr hcl hj
                  hck (Or.inr rfl)] at h
                simp at h
              · rcases hs : env.getSecret "github-oauth-client-id" with e | cid
                · rw [triage_step_secret env data e metadata u tok hm hc hr hcl hj hck hs] at h
                  simp at h
                · rcases ht : env.tokenCheck cid tok with e | st
                  · rw [triage_step_tokenTransport env data e cid metadata u tok hm hc hr hcl
                      hj hck hs ht] at h
                    simp at h
                  · by_cases hst : st = 200
                    · subst hst
                      rcases ho : env.orgMembership "web-platform-tests" with e | ost
                      · rw [triage_step_orgTransport env data cid e metadata u tok hm hc hr
                          hcl hj hck hs ht ho] at h
                        simp at h
                      · by_cases host : ost = 200
                        · subst host
                          rcases hb : env.githubClientFromToken "github-wpt-fyi-bot-token"
                            with e | bot
                          · rw [triage_step_botFailure env data cid e metadata u tok hm hc hr
                              hcl hj hck hs ht ho hb] at h
                            simp at h
                          · refine ⟨hm, hc, data, metadata, u, tok, cid, bot,
                              ?_, ?_, ?_, ?_, ?_, ?_, ?_, ?_⟩ <;>
                              simp [hr, hcl, hj, hck, hs, ht, ho, hb]
                        · rw [triage_step_notMember env data cid metadata u tok ost hm hc hr
                            hcl hj hck hs ht ho host] at h
                          simp at h
                    · rw [triage_step_tokenInvalid env data cid metadata u tok st hm hc hr
                        hcl hj hck hs ht hst] at h
                      simp at h
    · rw [triage_step_contentType env hm hc] at h
      simp at h
  · rw [triage_step_method env hm] at h
    simp at h

theorem triage_trace_inv (env : TriageEnv) :
    (apiMetadataTriageHandler env).2 = [] ∨
    ((apiMetadataTriageHandler env).2.head? =
        some (Event.secretLookup "github-oauth-client-id") ∧
      (Event.tokenCheck ∈ (apiMetadataTriageHandler env).2 →
        ∃ cid, env.getSecret "github-oauth-client-id" = Except.ok cid)) := by
  by_cases hm : env.method = "PATCH"
  · by_cases hc : env.contentType = "application/json"
    · rcases hr : env.readBody with e | data
      · rw [triage_step_readBody env e hm hc hr]
        simp
      · rcases hcl : env.closeBody with e | uu
        · rw [triage_step_closeBody env data e hm hc hr hcl]
          simp
        · cases uu
          rcases hj : env.unmarshal data with e | metadata
          · rw [triage_step_parse env data e hm hc hr hcl hj]
            simp
          · rcases hck : env.userFromCookie with ⟨uo, toko⟩
            rcases uo with _ | u
            · rw [triage_step_notLoggedIn env data metadata none toko hm hc hr hcl hj hck
                (Or.inl rfl)]
              simp
            · rcases toko with _ | tok
              · rw [triage_step_notLoggedIn env data metadata (some u) none hm hc hr hcl hj
                  hck (Or.inr rfl)]
                simp
              · rcases hs : env.getSecret "github-oauth-client-id" with e | cid
                · rw [triage_step_secret env data e metadata u tok hm hc hr hcl hj hck hs]
                  simp
                · rcases ht : env.tokenCheck cid tok with e | st
                  · rw [triage_step_tokenTransport env data e cid metadata u tok hm hc hr hcl
                      hj hck hs ht]
                    exact Or.inr ⟨rfl, fun _ => ⟨cid, rfl⟩⟩
                  · by_cases hst : st = 200
                    · subst hst
                      rcases ho : env.orgMembership "web-platform-tests" with e | ost
                      · rw [triage_step_orgTransport env data cid e metadata u tok hm hc hr
                          hcl hj hck hs ht ho]
                        exact Or.inr ⟨rfl, fun _ => ⟨cid, rfl⟩⟩
                      · by_cases host : ost = 200
                        · subst host
                          rcases hb : env.githubClientFromToken "github-wpt-fyi-bot-token"
                            with e | bot
                          · rw [triage_step_botFailure env data cid e metadata u tok hm hc hr
                              hcl hj hck hs ht ho hb]
                            exact Or.inr ⟨rfl, fun _ => ⟨cid, rfl⟩⟩
                          · rcases htr : env.triage metadata with e | tu
                            · rw [triage_step_submitFailure env data cid e metadata u tok bot
                                hm hc hr hcl hj hck hs ht ho hb htr]
                              exact Or.inr ⟨rfl, fun _ => ⟨cid, rfl⟩⟩
                            · cases tu
                              rw [triage_step_success env data cid metadata u tok bot hm hc
                                hr hcl hj hck hs ht ho hb htr]
                              exact Or.inr ⟨rfl, fun _ => ⟨cid, rfl⟩⟩
                        · rw [triage_step_notMember env data cid metadata u tok ost hm hc hr
                            hcl hj hck hs ht ho host]
                          exact Or.inr ⟨rfl, fun _ => ⟨cid, rfl⟩⟩
                    · rw [triage_step_tokenInvalid env data cid metadata u tok st hm hc hr
                        hcl hj hck hs ht hst]
                      exact Or.inr ⟨rfl, fun _ => ⟨cid, rfl⟩⟩
    · rw [triage_step_contentType env hm hc]
      simp
  · rw [triage_step_method env hm]
    simp

theorem extractLinkQuery_eq_none (args : List AbstractQuery)
    (h : ∀ p, args ≠ [AbstractQuery.link p]) : extractLinkQuery args = none := by
  match args with
  | [] => rfl
  | [AbstractQuery.link p] => exact absurd rfl (h p)
  | [AbstractQuery.otherNode t] => rfl
  | a :: b :: rest => cases a <;> rfl

/-! ## Concrete environments for the witnesses -/

/-- Triage environment in which every external call succeeds. -/
def envAuthorized : TriageEnv where
  method := "PATCH"
  contentType := "application/json"
  readBody := Except.ok "{}"
  closeBody := Except.ok ()
  unmarshal := fun _ => Except.ok []
  userFromCookie := (some ⟨"octocat", "octocat@example.com"⟩, some "user-token")
  getSecret := fun _ => Except.ok "client-id"
  tokenCheck := fun _ _ => Except.ok 200
  orgMembership := fun _ => Except.ok 200
  githubClientFromToken := fun _ => Except.ok ⟨0⟩
  triage := fun _ => Except.ok ()

/-- Metadata-endpoint environment whose POST body decodes to a structured
query with an empty argument list. -/
def envMetaNonLink : MetadataEnv where
  method := "POST"
  readBody := Except.ok "{}"
  closeBody := Except.ok ()
  unmarshalExists := fun _ => Except.ok ⟨[]⟩
  parseProducts := Except.ok ["chrome"]
  getMetadata := fun _ => Except.ok []
  marshal := fun _ => Except.ok "{}"
  writeBody := fun _ => Except.ok ()

/-! ## Claim theorems: TriageAuthorizer and TriageSubmitter -/

/-- C1: the triage authorization proceeds as an ordered sequence in which
each failing step terminates the request — wrong method 400; wrong
content-type 400; body read or close failure 500; JSON decode failure 400
naming the parse failure; missing session user or credential 400 "not
logged in"; token-check transport failure 500, non-200 status 400 "token
invalid"; membership transport failure 500, non-200 status 400 "not a
member" — and the submission runs only when every step has succeeded. -/
theorem triage_authorization_pipeline (env : TriageEnv) :
    (env.method ≠ "PATCH" →
      apiMetadataTriageHandler env =
        ({ status := 400, body := "Invalid HTTP method; only accpet PATCH request" }, []))
    ∧ (env.method = "PATCH" → env.contentType ≠ "application/json" →
        apiMetadataTriageHandler env =
          ({ status := 400, body := "Invalid content-type: %s" ++ env.contentType }, []))
    ∧ (∀ e, env.method = "PATCH" → env.contentType = "application/json" →
        env.readBody = Except.error e →
          apiMetadataTriageHandler env =
            ({ status := 500, body := "Failed to read PATCH request body" }, []))
    ∧ (∀ data e, env.method = "PATCH" → env.contentType = "application/json" →
        env.readBody = Except.ok data → env.closeBody = Except.error e →
          apiMetadataTriageHandler env =
            ({ status := 500, body := "Failed to finish reading request body" }, []))
    ∧ (∀ data e, env.method = "PATCH" → env.contentType = "application/json" →
        env.readBody = Except.ok data → env.closeBody = Except.ok () →
        env.unmarshal data = Except.error e →
          apiMetadataTriageHandler env =
            ({ status := 400, body := "Failed to parse JSON: " ++ e }, []))
    ∧ (∀ data metadata u t, env.method = "PATCH" →
        env.contentType = "application/json" →
        env.readBody = Except.ok data → env.closeBody = Except.ok () →
        env.unmarshal data = Except.ok metadata →
        env.userFromCookie = (u, t) → u = none ∨ t = none →
          apiMetadataTriageHandler env =
            ({ status := 400, body := "User is not logged in" }, []))
    ∧ (∀ data metadata u tok cid e, env.method = "PATCH" →
        env.contentType = "application/json" →
        env.readBody = Except.ok data → env.closeBody = Except.ok () →
        env.unmarshal data = Except.ok metadata →
        env.userFromCookie = (some u, some tok) →
        env.getSecret "github-oauth-client-id" = Except.ok cid →
        env.tokenCheck cid tok = Except.error e →
          (apiMetadataTriageHandler env).1 =
            { status := 500, body := "Fail to validate user token " ++ e })
    ∧ (∀ data metadata u tok cid st, env.method = "PATCH" →
        env.contentType = "application/json" →
        env.readBody = Except.ok data → env.closeBody = Except.ok () →
        env.unmarshal data = Except.ok metadata →
        env.userFromCookie = (some u, some tok) →
        env.getSecret "github-oauth-client-id" = Except.ok cid →
        env.tokenCheck cid tok = Except.ok st → st ≠ 200 →
          (apiMetadataTriageHandler env).1 =
            { status := 400, body := "User token invalid; please log in again. " })
    ∧ (∀ data metadata u tok cid e, env.method = "PATCH" →
        env.contentType = "application/json" →
        env.readBody = Except.ok data → env.closeBody = Except.ok () →
        env.unmarshal data = Except.ok metadata →
        env.userFromCookie = (some u, some tok) →
        env.getSecret "github-oauth-client-id" = Except.ok cid →
        env.tokenCheck cid tok = Except.ok 200 →
        env.orgMembership "web-platform-tests" = Except.error e →
          (apiMetadataTriageHandler env).1 =
            { status := 500,
              body := "Fail to validate web-platform-tests membership: " ++ e })
    ∧ (∀ data metadata u tok cid st, env.method = "PATCH" →
        env.contentType = "application/json" →
        env.readBody = Except.ok data → env.closeBody = Except.ok () →
        env.unmarshal data = Except.ok metadata →
        env.userFromCookie = (some u, some tok) →
        env.getSecret "github-oauth-client-id" = Except.ok cid →
        env.tokenCheck cid tok = Except.ok 200 →
        env.orgMembership "web-platform-tests" = Except.ok st → st ≠ 200 →
          (apiMetadataTriageHandler env).1 =
            { status := 400, body := "User is not a part of web-platform-tests" })
    ∧ (Event.submit ∈ (apiMetadataTriageHandler env).2 →
        env.method = "PATCH" ∧ env.contentType = "application/json" ∧
        ∃ (data : String) (metadata : MetadataResults) (u : User)
          (tok cid : String) (bot : GithubClient),
          env.readBody = Except.ok data ∧ env.closeBody = Except.ok () ∧
          env.unmarshal data = Except.ok metadata ∧
          env.userFromCookie = (some u, some tok) ∧
          env.getSecret "github-oauth-client-id" = Except.ok cid ∧
          env.tokenCheck cid tok = Except.ok 200 ∧
          env.orgMembership "web-platform-tests" = Except.ok 200 ∧
          env.githubClientFromToken "github-wpt-fyi-bot-token" = Except.ok bot) := by
  refine ⟨fun h => triage_step_method env h,
    fun hm hc => triage_step_contentType env hm hc,
    fun e hm hc h => triage_step_readBody env e hm hc h,
    fun data e hm hc hr h => triage_step_closeBody env data e hm hc hr h,
    fun data e hm hc hr hcl h => triage_step_parse env data e hm hc hr hcl h,
    fun data metadata u t hm hc hr hcl hj hck h =>
      triage_step_notLoggedIn env data metadata u t hm hc hr hcl hj hck h,
    fun data metadata u tok cid e hm hc hr hcl hj hck hs h => ?_,
    fun data metadata u tok cid st hm hc hr hcl hj hck hs ht h => ?_,
    fun data metadata u tok cid e hm hc hr hcl hj hck hs ht h => ?_,
    fun data metadata u tok cid st hm hc hr hcl hj hck hs ht ho h => ?_,
    fun h => triage_submit_only_if_authorized env h⟩
  · rw [triage_step_tokenTransport env data e cid metadata u tok hm hc hr hcl hj hck hs h]
  · rw [triage_step_tokenInvalid env data cid metadata u tok st hm hc hr hcl hj hck hs ht h]
  · rw [triage_step_orgTransport env data cid e metadata u tok hm hc hr hcl hj hck hs ht h]
  · rw [triage_step_notMember env data cid metadata u tok st hm hc hr hcl hj hck hs ht ho h]

/-- Witness for C1: a GET request to the triage endpoint is rejected with
400 and no external operation runs. -/
theorem triage_authorization_pipeline_witness :
    apiMetadataTriageHandler { envAuthorized with method := "GET" } =
      ({ status := 400, body := "Invalid HTTP method; only accpet PATCH request" }, []) :=
  (triage_authorization_pipeline { envAuthorized with method := "GET" }).1 (by decide)

/-- C5: a triage request whose body is not well-formed JSON gets a 400
response naming the parse failure, and no remote-hosting-API operation
(token check, membership check or submission) is invoked — the trace of
external operations is empty. -/
theorem triage_malformed_body_no_remote_calls (env : TriageEnv) (data e : String)
    (hm : env.method = "PATCH") (hc : env.contentType = "application/json")
    (hr : env.readBody = Except.ok data) (hcl : env.closeBody = Except.ok ())
    (hj : env.unmarshal data = Except.error e) :
    apiMetadataTriageHandler env =
      ({ status := 400, body := "Failed to parse JSON: " ++ e }, [])
    ∧ Event.tokenCheck ∉ (apiMetadataTriageHandler env).2
    ∧ Event.orgMembershipCheck ∉ (apiMetadataTriageHandler env).2
    ∧ Event.submit ∉ (apiMetadataTriageHandler env).2 := by
  have h := triage_step_parse env data e hm hc hr hcl hj
  refine ⟨h, ?_, ?_, ?_⟩ <;> rw [h] <;> simp

/-- Witness for C5: a concrete triage request whose body fails to decode. -/
theorem triage_malformed_body_no_remote_calls_witness :
    apiMetadataTriageHandler
        { envAuthorized with
            unmarshal := fun _ => Except.error "invalid character" } =
      ({ status := 400, body := "Failed to parse JSON: " ++ "invalid character" }, []) :=
  (triage_malformed_body_no_remote_calls
    { envAuthorized with unmarshal := fun _ => Except.error "invalid character" }
    "{}" "invalid character" rfl rfl rfl rfl rfl).1

/-- C9: for a fully authorized triage request, the outcome of the
submission determines the response — a failed service-credential (bot)
acquisition is a 500 with its own message and no submission runs; a failed
submission is a 500 wrapping the underlying error; a successful submission
is a 201 with an empty body; the two 500 messages are distinct whatever the
underlying errors. -/
theorem triage_submission_outcome (env : TriageEnv) (data cid : String)
    (metadata : MetadataResults) (u : User) (tok : String)
    (hm : env.method = "PATCH") (hc : env.contentType = "application/json")
    (hr : env.readBody = Except.ok data) (hcl : env.closeBody = Except.ok ())
    (hj : env.unmarshal data = Except.ok metadata)
    (hck : env.userFromCookie = (some u, some tok))
    (hs : env.getSecret "github-oauth-client-id" = Except.ok cid)
    (ht : env.tokenCheck cid tok = Except.ok 200)
    (ho : env.orgMembership "web-platform-tests" = Except.ok 200) :
    (∀ e, env.githubClientFromToken "github-wpt-fyi-bot-token" = Except.error e →
        (apiMetadataTriageHandler env).1 =
          { status := 500, body := "Unable to get Github Client: " ++ e }
        ∧ Event.submit ∉ (apiMetadataTriageHandler env).2)
    ∧ (∀ bot e,
        env.githubClientFromToken "github-wpt-fyi-bot-token" = Except.ok bot →
        env.triage metadata = Except.error e →
          (apiMetadataTriageHandler env).1 =
            { status := 500, body := "Unable to triage metadata: " ++ e })
    ∧ (∀ bot,
        env.githubClientFromToken "github-wpt-fyi-bot-token" = Except.ok bot →
        env.triage metadata = Except.ok () →
          (apiMetadataTriageHandler env).1 = { status := 201, body := "" })
    ∧ (∀ e1 e2 : String,
        "Unable to get Github Client: " ++ e1 ≠ "Unable to triage metadata: " ++ e2) := by
  refine ⟨?_, ?_, ?_, ?_⟩
  · intro e hb
    have h := triage_step_botFailure env data cid e metadata u tok hm hc hr hcl hj hck hs
      ht ho hb
    rw [h]
    simp
  · intro bot e hb htr
    rw [triage_step_submitFailure env data cid e metadata u tok bot hm hc hr hcl hj hck hs
      ht ho hb htr]
  · intro bot hb htr
    rw [triage_step_success env data cid metadata u tok bot hm hc hr hcl hj hck hs ht ho hb
      htr]
  · intro e1 e2 h
    have h2 := congrArg String.data h
    rw [String.data_append, String.data_append] at h2
    have h3 := congrArg (fun l => l[10]?) h2
    simp only at h3
    rw [List.getElem?_append_left (by decide), List.getElem?_append_left (by decide)] at h3
    simp at h3

/-- Witness for C9: the fully successful concrete environment yields 201
with an empty body. -/
theorem triage_submission_outcome_witness :
    (apiMetadataTriageHandler envAuthorized).1 = { status := 201, body := "" } :=
  (triage_submission_outcome envAuthorized "{}" "client-id" [] ⟨"octocat",
    "octocat@example.com"⟩ "user-token" rfl rfl rfl rfl rfl rfl rfl rfl rfl).2.2.1
    ⟨0⟩ rfl rfl

/-- C10: once the method, content-type, body and session checks pass, the
handler looks up the `github-oauth-client-id` secret before any
remote-hosting-API call: a failed lookup yields 500 with a message
beginning `Failed to get github-oauth-client-id secret: ` and a trace with
no token-check, membership or submission call; any trace containing the
token check contains a successful secret lookup, and every non-empty trace
starts with that lookup. -/
theorem triage_clientid_secret_gate :
    (∀ (env : TriageEnv) (data e : String) (metadata : MetadataResults)
        (u : User) (tok : String),
      env.method = "PATCH" → env.contentType = "application/json" →
      env.readBody = Except.ok data → env.closeBody = Except.ok () →
      env.unmarshal data = Except.ok metadata →
      env.userFromCookie = (some u, some tok) →
      env.getSecret "github-oauth-client-id" = Except.error e →
        apiMetadataTriageHandler env =
          ({ status := 500,
             body := "Failed to get github-oauth-client-id secret: " ++ e },
           [Event.secretLookup "github-oauth-client-id"])
        ∧ Event.tokenCheck ∉ (apiMetadataTriageHandler env).2
        ∧ Event.orgMembershipCheck ∉ (apiMetadataTriageHandler env).2
        ∧ Event.submit ∉ (apiMetadataTriageHandler env).2)
    ∧ (∀ env : TriageEnv, Event.tokenCheck ∈ (apiMetadataTriageHandler env).2 →
        ∃ cid, env.getSecret "github-oauth-client-id" = Except.ok cid)
    ∧ (∀ env : TriageEnv, (apiMetadataTriageHandler env).2 ≠ [] →
        (apiMetadataTriageHandler env).2.head? =
          some (Event.secretLookup "github-oauth-client-id")) := by
  refine ⟨?_, ?_, ?_⟩
  · intro env data e metadata u tok hm hc hr hcl hj hck hsec
    have h := triage_step_secret env data e metadata u tok hm hc hr hcl hj hck hsec
    refine ⟨h, ?_, ?_, ?_⟩ <;> rw [h] <;> simp
  · intro env hmem
    rcases triage_trace_inv env with hnil | ⟨_, himp⟩
    · rw [hnil] at hmem
      simp at hmem
    · exact himp hmem
  · intro env hne
    rcases triage_trace_inv env with hnil | ⟨hhead, _⟩
    · exact absurd hnil hne
    · exact hhead

/-- Witness for C10: a concrete environment whose secret lookup fails. -/
theorem triage_clientid_secret_gate_witness :
    apiMetadataTriageHandler
        { envAuthorized with getSecret := fun _ => Except.error "missing" } =
      ({ status := 500,
         body := "Failed to get github-oauth-client-id secret: " ++ "missing" },
       [Event.secretLookup "github-oauth-client-id"]) :=
  (triage_clientid_secret_gate.1
    { envAuthorized with getSecret := fun _ => Except.error "missing" }
    "{}" "missing" [] ⟨"octocat", "octocat@example.com"⟩ "user-token"
    rfl rfl rfl rfl rfl rfl rfl).1

/-! ## Claim theorems: MetadataQueryHandler -/

/-- C4: a POST to the metadata endpoint whose body is not well-formed JSON
is rejected with 400 carrying the parse error; a well-formed body whose
argument list is not exactly one link predicate is rejected with 400 and
the distinct non-Link-search-query message; in both cases the metadata
fetch never runs (the trace is empty). -/
theorem metadata_post_query_validation (env : MetadataEnv) (data : String)
    (hm : env.method = "POST") (hr : env.readBody = Except.ok data)
    (hcl : env.closeBody = Except.ok ()) :
    (∀ e, env.unmarshalExists data = Except.error e →
        ServeHTTP env = ({ status := 400, body := e }, []))
    ∧ (∀ ae : AbstractExists, env.unmarshalExists data = Except.ok ae →
        (∀ p, ae.args ≠ [AbstractQuery.link p]) →
          ServeHTTP env =
            ({ status := 400,
               body := "Error from request: non Link search query for api/metadata" },
             [])) := by
  constructor
  · intro e hj
    simp [ServeHTTP, hm, hr, hcl, hj]
  · intro ae hj hne
    have hex := extractLinkQuery_eq_none ae.args hne
    simp [ServeHTTP, hm, hr, hcl, hj, hex]

/-- Witness for C4: a POST whose structured query has an empty argument
list is rejected with the non-Link message and no fetch happens. -/
theorem metadata_post_query_validation_witness :
    ServeHTTP envMetaNonLink =
      ({ status := 400,
         body := "Error from request: non Link search query for api/metadata" }, []) :=
  (metadata_post_query_validation envMetaNonLink "{}" rfl rfl rfl).2 ⟨[]⟩ rfl
    (by intro p; simp)
